import Mathlib

/-!
Verification of the prompt-assembly core of `CotCompletionAgentRunner`
(`api/core/agent/cot_completion_agent_runner.py`).

The development embeds the three routines of the file —
`_organize_instruction_prompt`, `_organize_historic_prompt` and
`_organize_prompt_messages` — as pure Lean functions over an explicit
runner-state record, together with a faithful model of Python's
`str.replace` (which replaces every non-overlapping occurrence, scanning
left to right, never rescanning inserted text) and of
`json.dumps(jsonable_encoder(...))` for the tool catalog.
-/

/-! ## Python string primitives -/

/-- Core of Python `str.replace` on character lists: scan left to right;
at each position, if the (non-empty) pattern `old` is a prefix, emit `new`
and skip past the matched characters; otherwise keep one character and
continue.  Inserted text is never rescanned.  The extra `fuel` argument
makes the recursion structural; every branch consumes at least one
character, so any `fuel` at least the length of the list is enough. -/
def replaceAux (old new : List Char) : Nat → List Char → List Char
  | _, [] => []
  | 0, l => l
  | fuel + 1, c :: rest =>
    if !old.isEmpty && old.isPrefixOf (c :: rest) then
      new ++ replaceAux old new fuel ((c :: rest).drop old.length)
    else
      c :: replaceAux old new fuel rest

/-- Replacement scan of `l` with exactly sufficient fuel. -/
def replaceRun (old new l : List Char) : List Char :=
  replaceAux old new l.length l

/-- Python `str.replace(old, new)`.  The empty-pattern case follows CPython:
`new` is inserted before every character and at the end. -/
def pyReplace (s old new : String) : String :=
  if old.data.isEmpty then
    ⟨new.data ++ s.data.foldr (fun c acc => c :: (new.data ++ acc)) []⟩
  else
    ⟨replaceRun old.data new.data s.data⟩

/-- Occurrence test on character lists: true iff the pattern `sub` matches
at some position of `l` (an empty pattern matches everywhere). -/
def containsSub (sub : List Char) : List Char → Bool
  | [] => sub.isEmpty
  | c :: rest => sub.isPrefixOf (c :: rest) || containsSub sub rest

/-- Python `sub in s` membership test, lifted to `String`. -/
def pyContains (s sub : String) : Bool :=
  containsSub sub.data s.data

/-- Core of Python `str.count(sub)` for a non-empty pattern: number of
non-overlapping occurrences, counted scanning left to right, with the same
structural fuel as `replaceAux`. -/
def countOccAux (sub : List Char) : Nat → List Char → Nat
  | _, [] => 0
  | 0, _ => 0
  | fuel + 1, c :: rest =>
    if !sub.isEmpty && sub.isPrefixOf (c :: rest) then
      1 + countOccAux sub fuel ((c :: rest).drop sub.length)
    else
      countOccAux sub fuel rest

/-- Python `s.count(sub)`; for the empty pattern CPython returns
`len(s) + 1`. -/
def countOcc (s sub : String) : Nat :=
  if sub.data.isEmpty then s.length + 1
  else countOccAux sub.data s.data.length s.data

/-- Drop the last character of a string (list-level `dropLast`). -/
def strDropLast (s : String) : String :=
  ⟨s.data.dropLast⟩

/-- Concatenation of a list of strings, used to state that renderers are
per-element homomorphisms. -/
def concatStrings (l : List String) : String :=
  l.foldr (fun s acc => s ++ acc) ""

/-! ## JSON values and Python `json.dumps` -/

/-- JSON values, the image of `jsonable_encoder`.  Numbers are modelled as
integers, which covers the tool-parameter schemas handled here. -/
inductive Json where
  | null : Json
  | bool (b : Bool) : Json
  | num (n : Int) : Json
  | str (s : String) : Json
  | arr (xs : List Json) : Json
  | obj (fields : List (String × Json)) : Json

/-- Lower-case hexadecimal digit. -/
def hexDigit (n : Nat) : Char :=
  if n < 10 then Char.ofNat (48 + n) else Char.ofNat (87 + n)

/-- Four-digit `\uXXXX` escape used by `json.dumps` with `ensure_ascii`. -/
def uEscapeCode (n : Nat) : String :=
  "\\u" ++ String.mk [hexDigit (n / 4096 % 16), hexDigit (n / 256 % 16),
    hexDigit (n / 16 % 16), hexDigit (n % 16)]

/-- Escape of one character inside a JSON string literal, following
CPython `json.dumps` defaults (`ensure_ascii=True`): the two-character
escapes for quote, backslash and common control characters, `\uXXXX` for
other control or non-ASCII characters, with surrogate pairs above the
basic multilingual plane. -/
def jsonEscapeChar (c : Char) : String :=
  if c = '"' then "\\\""
  else if c = '\\' then "\\\\"
  else if c = '\n' then "\\n"
  else if c = '\t' then "\\t"
  else if c = '\x0d' then "\\r"
  else if c = '\x08' then "\\b"
  else if c = '\x0c' then "\\f"
  else if c.toNat < 32 || c.toNat > 126 then
    if c.toNat < 65536 then uEscapeCode c.toNat
    else
      uEscapeCode (55296 + (c.toNat - 65536) / 1024) ++
        uEscapeCode (56320 + (c.toNat - 65536) % 1024)
  else String.singleton c

/-- JSON string literal for `s`, double quotes included. -/
def jsonEscape (s : String) : String :=
  "\"" ++ concatStrings (s.data.map jsonEscapeChar) ++ "\""

mutual
/-- Python `json.dumps` with the default separators `", "` and `": "`. -/
def jsonDumps : Json → String
  | Json.null => "null"
  | Json.bool true => "true"
  | Json.bool false => "false"
  | Json.num n => toString n
  | Json.str s => jsonEscape s
  | Json.arr xs => "[" ++ String.intercalate ", " (jsonDumpsList xs) ++ "]"
  | Json.obj fs => "\x7b" ++ String.intercalate ", " (jsonDumpsObj fs) ++ "\x7d"

/-- Serialize each array element. -/
def jsonDumpsList : List Json → List String
  | [] => []
  | x :: xs => jsonDumps x :: jsonDumpsList xs

/-- Serialize each object entry as `"key": value`. -/
def jsonDumpsObj : List (String × Json) → List String
  | [] => []
  | (k, v) :: fs => (jsonEscape k ++ ": " ++ jsonDumps v) :: jsonDumpsObj fs
end

example : pyReplace "a b a" "a" "xy" = "xy b xy" := rfl
example : pyReplace "ab" "" "-" = "-a-b-" := rfl
example : pyReplace "aaa" "aa" "b" = "ba" := rfl
example : countOcc "x x" "x" = 2 := rfl
example : pyContains "hello" "ell" = true := rfl
example : pyContains "hello" "elo" = false := rfl
example : jsonDumps (Json.arr [Json.obj [("name", Json.str "calculator")]]) =
    "[\x7b\"name\": \"calculator\"\x7d]" := rfl

/-! ## Data model of the message entities -/

/-- Content part of a prompt message: `TextPromptMessageContent` carrying
`data`, or a non-text part such as an image part, which the renderers
skip. -/
inductive MessageContentPart where
  | text (data : String) : MessageContentPart
  | image (data : String) : MessageContentPart

/-- Value of a message `content` attribute when it is present.  In Python
the attribute is `str`, or a sequence of content parts, or a single
content-part object, probed at runtime with `isinstance`; modelled as a
tagged union. -/
inductive ContentVal where
  | str (s : String) : ContentVal
  | parts (ps : List MessageContentPart) : ContentVal
  | single (p : MessageContentPart) : ContentVal

/-- Prompt message variants distinguished by the history renderer
(`UserPromptMessage`, `AssistantPromptMessage`, `ToolPromptMessage`);
`system` stands for any other `PromptMessage` subtype, which the branch
chain of the loop ignores. -/
inductive PromptMessage where
  | user (content : Option ContentVal) : PromptMessage
  | assistant (content : Option ContentVal) : PromptMessage
  | tool (content : Option ContentVal) : PromptMessage
  | system (content : Option ContentVal) : PromptMessage

/-- Modelled from the spec: the ToolSpec record (`PromptMessageTool`) with
"name (string, unique within a catalog), description, and a
JSON-schema-like parameter definition"; its class definition is not part
of the excerpt.  `jsonable_encoder` turns such a record into a JSON object
with the three fields in declaration order. -/
structure PromptMessageTool where
  name : String
  description : String
  parameters : Json

/-- Modelled from the spec: `AgentScratchpadUnit` ("one reasoning step
with fields thought, action_str, observation, agent_response, and a
derived predicate is-final"); its class definition is not part of the
excerpt.  The derived predicate is kept abstract as a boolean field, and
optional string fields are modelled as possibly empty strings, so that
Python truthiness tests become non-emptiness tests. -/
structure AgentScratchpadUnit where
  thought : String
  action_str : String
  observation : String
  agent_response : String
  is_final : Bool

/-- Modelled from the spec: the prompt entity exposing the optional
`first_prompt` template string ("an agent configuration object exposing an
optional agent.prompt.first_prompt template string"). -/
structure AgentPromptEntity where
  first_prompt : String

/-- Modelled from the spec: the agent configuration with its optional
prompt entity. -/
structure AgentEntity where
  prompt : Option AgentPromptEntity

/-- Modelled from the spec: the application configuration exposing the
optional agent configuration read as `self.app_config.agent`. -/
structure AgentChatAppConfig where
  agent : Option AgentEntity

/-- State of the runner read by the three rendering methods:
`self.app_config`, `self._instruction`, `self._prompt_messages_tools`,
`self.history_prompt_messages`, `self._agent_scratchpad` and
`self._query`. -/
structure RunnerState where
  app_config : AgentChatAppConfig
  instruction : String
  prompt_messages_tools : List PromptMessageTool
  history_prompt_messages : Option (List PromptMessage)
  agent_scratchpad : Option (List AgentScratchpadUnit)
  query : String

/-! ## Placeholder tokens (braces written with hexadecimal escapes) -/

/-- Instruction placeholder token of the template. -/
def tokInstruction : String := "\x7b\x7binstruction\x7d\x7d"

/-- Tool-catalog placeholder token of the template. -/
def tokTools : String := "\x7b\x7btools\x7d\x7d"

/-- Tool-name-list placeholder token of the template. -/
def tokToolNames : String := "\x7b\x7btool_names\x7d\x7d"

/-- History-transcript placeholder token of the template. -/
def tokHistoric : String := "\x7b\x7bhistoric_messages\x7d\x7d"

/-- Scratchpad placeholder token of the template. -/
def tokScratchpad : String := "\x7b\x7bagent_scratchpad\x7d\x7d"

/-- Query placeholder token of the template. -/
def tokQuery : String := "\x7b\x7bquery\x7d\x7d"

/-! ## Embedded source functions -/

/-- Serialization of one tool by `jsonable_encoder`: a JSON object with
the record's fields in declaration order. -/
def encodeTool (t : PromptMessageTool) : Json :=
  Json.obj [("name", Json.str t.name), ("description", Json.str t.description),
    ("parameters", t.parameters)]

/-- Embedding of `_organize_instruction_prompt`: raise the two
distinguishable configuration errors, otherwise three successive
`str.replace` passes on `first_prompt` — the instruction text, then
`json.dumps(jsonable_encoder(tools))`, then the `", "`-join of the tool
names. -/
def organize_instruction_prompt (st : RunnerState) : Except String String :=
  match st.app_config.agent with
  | none => Except.error "Agent configuration is not set"
  | some agent =>
    match agent.prompt with
    | none => Except.error "prompt entity is not set"
    | some prompt_entity =>
      Except.ok (pyReplace (pyReplace (pyReplace prompt_entity.first_prompt
        tokInstruction st.instruction)
        tokTools (jsonDumps (Json.arr (st.prompt_messages_tools.map encodeTool))))
        tokToolNames (String.intercalate ", " (st.prompt_messages_tools.map (fun t => t.name))))

/-- Join used for part sequences in `_organize_historic_prompt`: the
single-space join of the `data` of the text parts, skipping every other
part. -/
def joinTextParts (ps : List MessageContentPart) : String :=
  String.intercalate " " (ps.filterMap (fun p =>
    match p with
    | MessageContentPart.text d => some d
    | MessageContentPart.image _ => none))

/-- Per-message block appended by the loop body of
`_organize_historic_prompt`, following its `isinstance` branch chain; a
combination with no branch contributes the empty string. -/
def renderHistoricMessage (m : PromptMessage) : String :=
  match m with
  | PromptMessage.user none => ""
  | PromptMessage.user (some (ContentVal.str s)) => "Question: " ++ s ++ "\n\n"
  | PromptMessage.user (some (ContentVal.parts ps)) =>
      "Question: " ++ joinTextParts ps ++ "\n\n"
  | PromptMessage.user (some (ContentVal.single _)) => ""
  | PromptMessage.assistant none => ""
  | PromptMessage.assistant (some (ContentVal.str s)) => s ++ "\n\n"
  | PromptMessage.assistant (some (ContentVal.parts ps)) => joinTextParts ps ++ "\n\n"
  | PromptMessage.assistant (some (ContentVal.single (MessageContentPart.text d))) =>
      d ++ "\n\n"
  | PromptMessage.assistant (some (ContentVal.single (MessageContentPart.image _))) => ""
  | PromptMessage.tool none => ""
  | PromptMessage.tool (some (ContentVal.str s)) => "Tool Response: " ++ s ++ "\n\n"
  | PromptMessage.tool (some (ContentVal.parts _)) => ""
  | PromptMessage.tool (some (ContentVal.single (MessageContentPart.text d))) =>
      "Tool Response: " ++ d ++ "\n\n"
  | PromptMessage.tool (some (ContentVal.single (MessageContentPart.image _))) => ""
  | PromptMessage.system _ => ""

/-- Embedding of `_organize_historic_prompt`:
`self.history_prompt_messages or []`, then the accumulating loop over the
messages. -/
def organize_historic_prompt (hist : Option (List PromptMessage)) : String :=
  (hist.getD []).foldl (fun acc m => acc ++ renderHistoricMessage m) ""

/-- One iteration of the scratchpad loop of `_organize_prompt_messages`,
appending to the accumulator exactly what the Python loop body appends:
the final-answer line for a final unit, otherwise the thought line, then
the action line when `action_str` is truthy, then the observation line
when `observation` is truthy. -/
def scratchpadStep (acc : String) (u : AgentScratchpadUnit) : String :=
  if u.is_final then
    acc ++ ("Final Answer: " ++ u.agent_response)
  else
    let acc1 := acc ++ ("Thought: " ++ u.thought ++ "\n\n")
    let acc2 := if u.action_str ≠ "" then acc1 ++ ("Action: " ++ u.action_str ++ "\n\n")
      else acc1
    if u.observation ≠ "" then acc2 ++ ("Observation: " ++ u.observation ++ "\n\n")
    else acc2

/-- Scratchpad rendering loop of `_organize_prompt_messages`
(`for unit in agent_scratchpad or []`). -/
def renderAgentScratchpad (sp : Option (List AgentScratchpadUnit)) : String :=
  (sp.getD []).foldl scratchpadStep ""

/-- Embedding of `_organize_prompt_messages`: render the instruction
prompt (its configuration errors propagate), the history transcript and
the scratchpad, then substitute the history, scratchpad and query
placeholders by three `str.replace` passes, and wrap the result as the
single user-role message holding one text content part. -/
def organize_prompt_messages (st : RunnerState) : Except String (List PromptMessage) :=
  match organize_instruction_prompt st with
  | Except.error e => Except.error e
  | Except.ok system_prompt =>
    let historic_prompt := organize_historic_prompt st.history_prompt_messages
    let assistant_prompt := renderAgentScratchpad st.agent_scratchpad
    let query_prompt := "Question: " ++ st.query
    let prompt := pyReplace (pyReplace (pyReplace system_prompt
      tokHistoric historic_prompt) tokScratchpad assistant_prompt) tokQuery query_prompt
    Except.ok [PromptMessage.user (some (ContentVal.parts [MessageContentPart.text prompt]))]

example :
    organize_historic_prompt (some [PromptMessage.user (some (ContentVal.str "Hi")),
      PromptMessage.assistant (some (ContentVal.str "Hello")),
      PromptMessage.tool (some (ContentVal.str "ok"))]) =
    "Question: Hi\n\nHello\n\nTool Response: ok\n\n" := rfl

example :
    renderAgentScratchpad (some [⟨"t", "a", "o", "", false⟩, ⟨"", "", "", "done", true⟩]) =
    "Thought: t\n\nAction: a\n\nObservation: o\n\nFinal Answer: done" := rfl

/-! ## Lemmas about the replacement scan -/

/-- Scanning the empty list yields the empty list at any fuel. -/
theorem replaceAux_nil (old new : List Char) (fuel : Nat) :
    replaceAux old new fuel [] = [] := by
  cases fuel <;> rfl

/-- The scan result does not depend on the fuel, as long as the fuel is at
least the length of the scanned list. -/
theorem replaceAux_fuel (old new : List Char) :
    ∀ (fuel₁ : Nat) (l : List Char), l.length ≤ fuel₁ →
      ∀ (fuel₂ : Nat), l.length ≤ fuel₂ →
        replaceAux old new fuel₁ l = replaceAux old new fuel₂ l := by
  intro fuel₁
  induction fuel₁ with
  | zero =>
    intro l hl fuel₂ _
    have : l = [] := List.length_eq_zero.mp (Nat.le_zero.mp hl)
    subst this
    rw [replaceAux_nil, replaceAux_nil]
  | succ f ih =>
    intro l hl fuel₂ h₂
    cases l with
    | nil => rw [replaceAux_nil, replaceAux_nil]
    | cons c rest =>
      cases fuel₂ with
      | zero => simp at h₂
      | succ f₂ =>
        simp only [replaceAux]
        have hrest : rest.length ≤ f := by simp at hl; omega
        have hrest₂ : rest.length ≤ f₂ := by simp at h₂; omega
        by_cases hc : (!old.isEmpty && old.isPrefixOf (c :: rest)) = true
        · rw [if_pos hc, if_pos hc]
          have hone : 1 ≤ old.length := by
            rcases old with _ | ⟨a, as⟩
            · simp at hc
            · simp
          have hdrop : ((c :: rest).drop old.length).length ≤ f := by
            simp only [List.length_drop, List.length_cons]; omega
          have hdrop₂ : ((c :: rest).drop old.length).length ≤ f₂ := by
            simp only [List.length_drop, List.length_cons]; omega
          rw [ih _ hdrop _ hdrop₂]
        · rw [if_neg hc, if_neg hc, ih _ hrest _ hrest₂]

/-- Scan equation at a matching position. -/
theorem replaceRun_cons_match (old new : List Char) (c : Char) (rest : List Char)
    (h : (!old.isEmpty && old.isPrefixOf (c :: rest)) = true) :
    replaceRun old new (c :: rest) =
      new ++ replaceRun old new ((c :: rest).drop old.length) := by
  unfold replaceRun
  have hone : 1 ≤ old.length := by
    rcases old with _ | ⟨a, as⟩
    · simp at h
    · simp
  show replaceAux old new (rest.length + 1) (c :: rest) = _
  simp only [replaceAux, if_pos h]
  congr 1
  apply replaceAux_fuel
  · simp only [List.length_drop, List.length_cons]; omega
  · exact Nat.le_refl _

/-- Scan equation at a non-matching position. -/
theorem replaceRun_cons_nomatch (old new : List Char) (c : Char) (rest : List Char)
    (h : (!old.isEmpty && old.isPrefixOf (c :: rest)) = false) :
    replaceRun old new (c :: rest) = c :: replaceRun old new rest := by
  unfold replaceRun
  show replaceAux old new (rest.length + 1) (c :: rest) = _
  simp only [replaceAux]
  rw [if_neg (show ¬((!old.isEmpty && old.isPrefixOf (c :: rest)) = true) by
    rw [h]; exact Bool.false_ne_true)]

/-- The empty pattern matches at every position. -/
theorem containsSub_nil (l : List Char) : containsSub [] l = true := by
  cases l <;> rfl

/-- A scan over a list in which the pattern never matches is the
identity. -/
theorem replaceRun_of_not_contains (old new : List Char) :
    ∀ l, containsSub old l = false → replaceRun old new l = l := by
  intro l
  induction l with
  | nil => intro _; rfl
  | cons c rest ih =>
    intro h
    simp only [containsSub, Bool.or_eq_false_iff] at h
    rw [replaceRun_cons_nomatch old new c rest (by simp [h.1]), ih h.2]

/-- A list is a prefix of itself extended on the right. -/
theorem isPrefixOf_append_self (l t : List Char) : l.isPrefixOf (l ++ t) = true := by
  induction l with
  | nil => cases t <;> rfl
  | cons a as ih => simp [List.isPrefixOf, ih]

/-- A pattern that matches the front of `l₁ ++ l₂` and fits inside `l₁`
matches the front of `l₁`. -/
theorem isPrefixOf_of_isPrefixOf_append (sub : List Char) :
    ∀ (l₁ l₂ : List Char), sub.length ≤ l₁.length →
      sub.isPrefixOf (l₁ ++ l₂) = true → sub.isPrefixOf l₁ = true := by
  induction sub with
  | nil => intro l₁ l₂ _ _; cases l₁ <;> rfl
  | cons a as ih =>
    intro l₁ l₂ hlen h
    cases l₁ with
    | nil => simp at hlen
    | cons b bs =>
      simp only [List.cons_append, List.isPrefixOf, Bool.and_eq_true] at h ⊢
      refine ⟨h.1, ih bs l₂ ?_ h.2⟩
      simp only [List.length_cons] at hlen
      omega

/-- The pattern occurs in any list of the shape `p ++ sub ++ x`. -/
theorem containsSub_append_self (sub : List Char) :
    ∀ (p x : List Char), containsSub sub (p ++ (sub ++ x)) = true := by
  intro p
  induction p with
  | nil =>
    intro x
    rcases sub with _ | ⟨a, as⟩
    · exact containsSub_nil _
    · simp only [List.nil_append]
      show ((a :: as).isPrefixOf ((a :: as) ++ x) || _) = true
      rw [isPrefixOf_append_self, Bool.true_or]
  | cons c p' ih =>
    intro x
    show (sub.isPrefixOf (c :: (p' ++ (sub ++ x))) || containsSub sub (p' ++ (sub ++ x))) = true
    rw [ih x, Bool.or_true]

/-- Main decomposition: if the first match of the (non-empty) pattern in
`p ++ old ++ s` is the shown occurrence — no match starts inside `p` or
overlaps out of it, which is expressed as the pattern not occurring in
`p ++ old.dropLast` — then the scan keeps `p`, replaces the shown
occurrence, and continues in `s` alone. -/
theorem replaceRun_split (old new : List Char) (hne : old ≠ []) :
    ∀ (p s : List Char), containsSub old (p ++ old.dropLast) = false →
      replaceRun old new (p ++ old ++ s) = p ++ new ++ replaceRun old new s := by
  intro p
  induction p with
  | nil =>
    intro s _
    simp only [List.nil_append]
    rcases old with _ | ⟨a, as⟩
    · exact absurd rfl hne
    have hp : (a :: as).isPrefixOf (a :: (as ++ s)) = true :=
      isPrefixOf_append_self (a :: as) s
    rw [show ((a :: as) ++ s) = a :: (as ++ s) from rfl]
    rw [replaceRun_cons_match _ new a (as ++ s) (by simp [hp])]
    rw [show ((a :: (as ++ s)).drop (a :: as).length) =
      (((a :: as) ++ s).drop (a :: as).length) from rfl, List.drop_left]
  | cons c p' ih =>
    intro s h
    have hsplitB : (Bool.or (old.isPrefixOf (c :: (p' ++ old.dropLast)))
        (containsSub old (p' ++ old.dropLast))) = false := h
    rw [Bool.or_eq_false_iff] at hsplitB
    have h' : containsSub old (p' ++ old.dropLast) = false := hsplitB.2
    have hone : 1 ≤ old.length := by
      rcases old with _ | ⟨a, as⟩
      · exact absurd rfl hne
      · simp
    have hpre : old.isPrefixOf (c :: (p' ++ old ++ s)) = false := by
      rw [Bool.eq_false_iff]
      intro hc
      have hsplit : c :: (p' ++ old ++ s) =
          (c :: (p' ++ old.dropLast)) ++ ([old.getLast hne] ++ s) := by
        conv_lhs => rw [← List.dropLast_append_getLast hne]
        simp [List.append_assoc]
      have hlen : old.length ≤ (c :: (p' ++ old.dropLast)).length := by
        simp only [List.length_cons, List.length_append, List.length_dropLast]
        omega
      rw [hsplit] at hc
      have hfront := isPrefixOf_of_isPrefixOf_append old _ _ hlen hc
      rw [hsplitB.1] at hfront
      exact Bool.false_ne_true hfront
    rw [show ((c :: p') ++ old ++ s) = c :: (p' ++ old ++ s) from rfl]
    rw [replaceRun_cons_nomatch old new c _ (by rw [hpre, Bool.and_false])]
    rw [ih s h']
    rfl

/-! ## String-level corollaries for `pyReplace` and `pyContains` -/

/-- A string whose pattern does not occur is returned unchanged by
`str.replace`. -/
theorem pyReplace_of_not_contains (S tok I : String) (h : pyContains S tok = false) :
    pyReplace S tok I = S := by
  have hne : tok.data.isEmpty = false := by
    rcases htok : tok.data with _ | ⟨a, as⟩
    · unfold pyContains at h
      rw [htok, containsSub_nil] at h
      exact absurd h (by simp)
    · rfl
  unfold pyReplace
  rw [if_neg (by simp [hne])]
  apply String.ext
  exact replaceRun_of_not_contains tok.data I.data S.data h

/-- String-level decomposition of one `str.replace` pass around a shown
first occurrence of the pattern. -/
theorem pyReplace_split (P S tok I : String) (hne : tok.data ≠ [])
    (h : pyContains (P ++ strDropLast tok) tok = false) :
    pyReplace (P ++ tok ++ S) tok I = P ++ I ++ pyReplace S tok I := by
  have hne' : tok.data.isEmpty = false := by
    rcases htok : tok.data with _ | ⟨a, as⟩
    · exact absurd htok hne
    · rfl
  unfold pyReplace
  rw [if_neg (by simp [hne']), if_neg (by simp [hne'])]
  apply String.ext
  simp only [String.data_append]
  have hh : containsSub tok.data (P.data ++ tok.data.dropLast) = false := h
  have := replaceRun_split tok.data I.data hne P.data S.data hh
  simpa [List.append_assoc] using this

/-- Any string of the shape `P ++ I ++ X` contains `I`. -/
theorem pyContains_middle (P I X : String) : pyContains (P ++ I ++ X) I = true := by
  unfold pyContains
  simp only [String.data_append, List.append_assoc]
  exact containsSub_append_self I.data P.data X.data

/-! ## Fold homomorphism lemmas for the renderers -/

/-- Appending-accumulator folds compute the concatenation of the mapped
blocks, shifted by the initial accumulator. -/
theorem foldl_append_eq_concat {α : Type} (f : α → String) :
    ∀ (l : List α) (a : String),
      l.foldl (fun acc x => acc ++ f x) a = a ++ concatStrings (l.map f) := by
  intro l
  induction l with
  | nil => intro a; simp [concatStrings, String.append_empty]
  | cons x xs ih =>
    intro a
    simp only [List.foldl_cons, List.map_cons]
    rw [ih (a ++ f x)]
    rw [String.append_assoc]
    rfl

/-- Concatenation of blocks distributes over list append. -/
theorem concatStrings_append (l₁ l₂ : List String) :
    concatStrings (l₁ ++ l₂) = concatStrings l₁ ++ concatStrings l₂ := by
  induction l₁ with
  | nil => simp [concatStrings, String.empty_append]
  | cons s rest ih =>
    show s ++ concatStrings (rest ++ l₂) = (s ++ concatStrings rest) ++ concatStrings l₂
    rw [ih, String.append_assoc]

/-! ## Definitions following the specification text -/

/-- Scratchpad unit rendering as the spec words it (section 4.3): only
the final-answer text, with no trailing blank line, for a final unit;
otherwise the thought line, then the action line exactly when
`action_str` is non-empty, then the observation line exactly when
`observation` is non-empty, in that order. -/
def renderScratchpadUnitSpec (u : AgentScratchpadUnit) : String :=
  if u.is_final then "Final Answer: " ++ u.agent_response
  else
    "Thought: " ++ u.thought ++ "\n\n" ++
      (if u.action_str ≠ "" then "Action: " ++ u.action_str ++ "\n\n" else "") ++
      (if u.observation ≠ "" then "Observation: " ++ u.observation ++ "\n\n" else "")

/-- Tool catalog serialization as the spec words it (section 4.1): a JSON
array of one object per tool, preserving catalog order, with the name,
description and parameter-schema fields included in their plain JSON
representation. -/
def toolsJsonSpec (ts : List PromptMessageTool) : String :=
  jsonDumps (Json.arr (ts.map (fun t => Json.obj
    [("name", Json.str t.name), ("description", Json.str t.description),
      ("parameters", t.parameters)])))

/-- Tool-name list as the spec words it: the names joined with the
two-character comma-space separator in catalog order. -/
def toolNamesSpec (ts : List PromptMessageTool) : String :=
  String.intercalate ", " (ts.map (fun t => t.name))

/-! ## Bridging lemmas between the loops and per-element blocks -/

/-- One scratchpad loop iteration appends exactly the per-unit block. -/
theorem scratchpadStep_eq (acc : String) (u : AgentScratchpadUnit) :
    scratchpadStep acc u = acc ++ renderScratchpadUnitSpec u := by
  simp only [scratchpadStep, renderScratchpadUnitSpec]
  split_ifs <;> simp [String.append_assoc, String.append_empty]

/-- The scratchpad fold computes the concatenation of the per-unit
blocks, shifted by the initial accumulator. -/
theorem foldl_scratchpadStep (l : List AgentScratchpadUnit) :
    ∀ (a : String), l.foldl scratchpadStep a =
      a ++ concatStrings (l.map renderScratchpadUnitSpec) := by
  induction l with
  | nil => intro a; simp [concatStrings, String.append_empty]
  | cons u us ih =>
    intro a
    simp only [List.foldl_cons, List.map_cons]
    rw [scratchpadStep_eq, ih, String.append_assoc]
    rfl

/-- The scratchpad rendering is the concatenation of the per-unit
blocks. -/
theorem renderAgentScratchpad_concat (l : List AgentScratchpadUnit) :
    renderAgentScratchpad (some l) = concatStrings (l.map renderScratchpadUnitSpec) := by
  unfold renderAgentScratchpad
  rw [show (some l).getD ([] : List AgentScratchpadUnit) = l from rfl]
  rw [foldl_scratchpadStep]
  exact String.empty_append _

/-- The history transcript is the concatenation of the per-message
blocks. -/
theorem organize_historic_prompt_concat (ms : List PromptMessage) :
    organize_historic_prompt (some ms) = concatStrings (ms.map renderHistoricMessage) := by
  unfold organize_historic_prompt
  rw [show (some ms).getD ([] : List PromptMessage) = ms from rfl]
  rw [foldl_append_eq_concat]
  exact String.empty_append _

/-- Contribution of one message inside an arbitrary history: the
transcript splits around the per-message block. -/
theorem organize_historic_prompt_append (pre post : List PromptMessage) (m : PromptMessage) :
    organize_historic_prompt (some (pre ++ m :: post)) =
      organize_historic_prompt (some pre) ++ renderHistoricMessage m ++
        organize_historic_prompt (some post) := by
  rw [organize_historic_prompt_concat, organize_historic_prompt_concat,
    organize_historic_prompt_concat]
  rw [List.map_append, concatStrings_append, List.map_cons]
  rw [show concatStrings (renderHistoricMessage m :: post.map renderHistoricMessage) =
    renderHistoricMessage m ++ concatStrings (post.map renderHistoricMessage) from rfl]
  rw [String.append_assoc]

/-! ## Claim theorems -/

/-- Claim C1: in the scratchpad rendering of `_organize_prompt_messages`,
a final unit contributes exactly the final-answer text with no trailing
blank line; a non-final unit contributes the thought line, then the
action line exactly when `action_str` is non-empty, then the observation
line exactly when `observation` is non-empty, in that order; and the full
rendering is the concatenation of the per-unit renderings in scratchpad
order (`renderScratchpadUnitSpec` restates the per-unit text from the
spec). -/
theorem claim_c1_scratchpad_rendering (units : List AgentScratchpadUnit) :
    renderAgentScratchpad (some units) =
      concatStrings (units.map renderScratchpadUnitSpec) :=
  renderAgentScratchpad_concat units

/-- Claim C2: whenever the instruction render succeeds,
`_organize_prompt_messages` returns exactly one user-role message holding
a single text content part, whose text is the rendered instruction prompt
with the history, scratchpad and query placeholders substituted in that
order, the query placeholder by the question-prefixed query. -/
theorem claim_c2_single_message (st : RunnerState) (system_prompt : String)
    (h : organize_instruction_prompt st = Except.ok system_prompt) :
    organize_prompt_messages st = Except.ok
      [PromptMessage.user (some (ContentVal.parts [MessageContentPart.text
        (pyReplace (pyReplace (pyReplace system_prompt
          tokHistoric (organize_historic_prompt st.history_prompt_messages))
          tokScratchpad (renderAgentScratchpad st.agent_scratchpad))
          tokQuery ("Question: " ++ st.query))]))] := by
  unfold organize_prompt_messages
  rw [h]

/-- Demo state with every configuration piece present, used to witness the
success paths. -/
def stDemo : RunnerState :=
  ⟨⟨some ⟨some ⟨"Hello"⟩⟩⟩, "I", [], none, none, "q"⟩

/-- Witness for claim C2 at a concrete state whose instruction render
succeeds. -/
theorem claim_c2_witness :
    organize_prompt_messages stDemo = Except.ok
      [PromptMessage.user (some (ContentVal.parts [MessageContentPart.text
        (pyReplace (pyReplace (pyReplace "Hello"
          tokHistoric (organize_historic_prompt stDemo.history_prompt_messages))
          tokScratchpad (renderAgentScratchpad stDemo.agent_scratchpad))
          tokQuery ("Question: " ++ stDemo.query))]))] :=
  claim_c2_single_message stDemo "Hello" rfl

/-- Claim C4: the two configuration failures of
`_organize_instruction_prompt` are exactly characterized and mutually
distinct — the agent-not-configured error occurs precisely when the agent
configuration is absent, the prompt-entity error precisely when the agent
is present but its prompt entity is absent, and when both are present the
render succeeds. -/
theorem claim_c4_config_errors (st : RunnerState) :
    (organize_instruction_prompt st = Except.error "Agent configuration is not set" ↔
      st.app_config.agent = none) ∧
    (organize_instruction_prompt st = Except.error "prompt entity is not set" ↔
      ∃ a, st.app_config.agent = some a ∧ a.prompt = none) ∧
    ("Agent configuration is not set" ≠ ("prompt entity is not set" : String)) ∧
    (∀ a pe, st.app_config.agent = some a → a.prompt = some pe →
      ∃ s, organize_instruction_prompt st = Except.ok s) := by
  have hmsg : "Agent configuration is not set" ≠ ("prompt entity is not set" : String) := by
    decide
  rcases st with ⟨⟨agentOpt⟩, instr, tools, hist, sp, q⟩
  rcases agentOpt with _ | ⟨promptOpt⟩
  · refine ⟨by simp [organize_instruction_prompt], ?_, hmsg, ?_⟩
    · constructor
      · intro heq
        simp only [organize_instruction_prompt, Except.error.injEq] at heq
        exact absurd heq hmsg
      · rintro ⟨a, ha, _⟩
        exact Option.noConfusion ha
    · intro a pe ha _
      exact Option.noConfusion ha
  · rcases promptOpt with _ | ⟨pe⟩
    · refine ⟨?_, ?_, hmsg, ?_⟩
      · constructor
        · intro heq
          simp only [organize_instruction_prompt, Except.error.injEq] at heq
          exact absurd heq.symm hmsg
        · intro hnone
          exact Option.noConfusion hnone
      · constructor
        · intro _
          exact ⟨⟨none⟩, rfl, rfl⟩
        · intro _
          rfl
      · intro a pe ha hpe
        cases ha
        exact Option.noConfusion hpe
    · refine ⟨?_, ?_, hmsg, ?_⟩
      · constructor
        · intro heq
          exact Except.noConfusion heq
        · intro hnone
          exact Option.noConfusion hnone
      · constructor
        · intro heq
          exact Except.noConfusion heq
        · rintro ⟨a, ha, hpn⟩
          cases ha
          exact Option.noConfusion hpn
      · intro a pe' ha hpe
        exact ⟨_, rfl⟩

/-- Runner state with no agent configuration. -/
def stNoAgent : RunnerState :=
  ⟨⟨none⟩, "", [], none, none, ""⟩

/-- Witness for claim C4: the agent-not-configured error is actually
raised at a state with no agent configuration. -/
theorem claim_c4_witness :
    organize_instruction_prompt stNoAgent = Except.error "Agent configuration is not set" :=
  (claim_c4_config_errors stNoAgent).1.mpr rfl

/-- Claim C5: in the rendered instruction prompt, the tool-catalog
placeholder is substituted by the catalog serialized as a JSON array of
one object per tool in catalog order with the name, description and
parameter-schema fields, and the tool-names placeholder by the names
joined with the two-character comma-space separator in catalog order
(`toolsJsonSpec` and `toolNamesSpec` restate the substituted texts from
the spec). -/
theorem claim_c5_tool_substitution (st : RunnerState) (a : AgentEntity)
    (pe : AgentPromptEntity) (ha : st.app_config.agent = some a)
    (hp : a.prompt = some pe) :
    organize_instruction_prompt st = Except.ok
      (pyReplace (pyReplace (pyReplace pe.first_prompt tokInstruction st.instruction)
        tokTools (toolsJsonSpec st.prompt_messages_tools))
        tokToolNames (toolNamesSpec st.prompt_messages_tools)) := by
  simp only [organize_instruction_prompt, ha, hp]
  rfl

/-- Prompt entity exercising the two tool placeholders. -/
def peTools : AgentPromptEntity :=
  ⟨"Tools: " ++ tokTools ++ " Names: " ++ tokToolNames⟩

/-- Two-tool catalog for the witnesses. -/
def stTools : RunnerState :=
  ⟨⟨some ⟨some peTools⟩⟩, "I",
    [⟨"calculator", "A calculator tool", Json.obj [("type", Json.str "object")]⟩,
     ⟨"weather", "A weather tool", Json.obj [("type", Json.str "object")]⟩],
    none, none, "q"⟩

/-- Witness for claim C5 at a concrete two-tool catalog. -/
theorem claim_c5_witness :
    organize_instruction_prompt stTools = Except.ok
      (pyReplace (pyReplace (pyReplace peTools.first_prompt tokInstruction stTools.instruction)
        tokTools (toolsJsonSpec stTools.prompt_messages_tools))
        tokToolNames (toolNamesSpec stTools.prompt_messages_tools)) :=
  claim_c5_tool_substitution stTools ⟨some peTools⟩ peTools rfl rfl

/-- Claim C10: scratchpad rendering does not terminate at a final unit —
any units after a final one are still rendered, appended immediately
after the final-answer text with no separator, and no error is raised
(the rendering is total). -/
theorem claim_c10_no_termination_at_final (pre post : List AgentScratchpadUnit)
    (u : AgentScratchpadUnit) (h : u.is_final = true) :
    renderAgentScratchpad (some (pre ++ u :: post)) =
      renderAgentScratchpad (some pre) ++ ("Final Answer: " ++ u.agent_response) ++
        renderAgentScratchpad (some post) := by
  rw [renderAgentScratchpad_concat, renderAgentScratchpad_concat,
    renderAgentScratchpad_concat]
  rw [List.map_append, concatStrings_append, List.map_cons]
  rw [show concatStrings (renderScratchpadUnitSpec u :: post.map renderScratchpadUnitSpec) =
    renderScratchpadUnitSpec u ++ concatStrings (post.map renderScratchpadUnitSpec) from rfl]
  rw [show renderScratchpadUnitSpec u = "Final Answer: " ++ u.agent_response by
    unfold renderScratchpadUnitSpec
    rw [if_pos h]]
  simp [String.append_assoc]

/-- Witness for claim C10: a final unit followed by one more unit, whose
text is still appended right after the final-answer text. -/
theorem claim_c10_witness :
    renderAgentScratchpad (some ([⟨"t", "", "", "", false⟩] ++
        (⟨"", "", "", "done", true⟩ : AgentScratchpadUnit) ::
        [⟨"t2", "a2", "o2", "", false⟩])) =
      renderAgentScratchpad (some [⟨"t", "", "", "", false⟩]) ++
        ("Final Answer: " ++ "done") ++
        renderAgentScratchpad (some [⟨"t2", "a2", "o2", "", false⟩]) :=
  claim_c10_no_termination_at_final [⟨"t", "", "", "", false⟩]
    [⟨"t2", "a2", "o2", "", false⟩] ⟨"", "", "", "done", true⟩ rfl

/-- State refuting claim C3 as stated: the configured template contains
the instruction token twice. -/
def stC3 : RunnerState :=
  ⟨⟨some ⟨some ⟨tokInstruction ++ " and " ++ tokInstruction⟩⟩⟩, "x", [], none, none, "q"⟩

/-- Counterexample to claim C3 as stated: for a template containing the
instruction token and the instruction text of the demo state, the
rendered prompt contains the instruction text twice, not exactly once —
`str.replace` replaces every occurrence of the token, so a template with
the token twice inserts the text twice. -/
theorem claim_c3_counterexample :
    organize_instruction_prompt stC3 = Except.ok "x and x" ∧
      countOcc "x and x" "x" = 2 :=
  ⟨rfl, rfl⟩

/-- Claim C3 amended: write the template as `P ++ token ++ S` with no
match of the instruction token starting inside `P` or overlapping out of
it (no occurrence in `P` followed by all but the last character of the
token), and suppose the string obtained by substituting the instruction
text `I` contains neither of the two later placeholder tokens.  Then the
rendered instruction prompt is exactly that substituted string — every
occurrence of the token replaced literally by `I` — and it contains `I`
verbatim at least once (not necessarily exactly once). -/
theorem claim_c3_amended (P S I : String) (tools : List PromptMessageTool)
    (h1 : pyContains (P ++ strDropLast tokInstruction) tokInstruction = false)
    (h2 : pyContains (P ++ I ++ pyReplace S tokInstruction I) tokTools = false)
    (h3 : pyContains (P ++ I ++ pyReplace S tokInstruction I) tokToolNames = false) :
    organize_instruction_prompt
        ⟨⟨some ⟨some ⟨P ++ tokInstruction ++ S⟩⟩⟩, I, tools, none, none, ""⟩ =
      Except.ok (P ++ I ++ pyReplace S tokInstruction I) ∧
      pyContains (P ++ I ++ pyReplace S tokInstruction I) I = true := by
  have hne : tokInstruction.data ≠ [] := by decide
  have base : organize_instruction_prompt
      ⟨⟨some ⟨some ⟨P ++ tokInstruction ++ S⟩⟩⟩, I, tools, none, none, ""⟩ =
      Except.ok (pyReplace (pyReplace (pyReplace (P ++ tokInstruction ++ S)
        tokInstruction I)
        tokTools (jsonDumps (Json.arr (tools.map encodeTool))))
        tokToolNames (String.intercalate ", " (tools.map (fun t => t.name)))) := rfl
  have e1 : pyReplace (P ++ tokInstruction ++ S) tokInstruction I =
      P ++ I ++ pyReplace S tokInstruction I :=
    pyReplace_split P S tokInstruction I hne h1
  constructor
  · rw [base, e1, pyReplace_of_not_contains _ _ _ h2, pyReplace_of_not_contains _ _ _ h3]
  · exact pyContains_middle P I (pyReplace S tokInstruction I)

/-- Witness for the amended claim C3 at a concrete template, instruction
text and empty catalog. -/
theorem claim_c3_amended_witness :
    organize_instruction_prompt
        ⟨⟨some ⟨some ⟨"Hello " ++ tokInstruction ++ " World"⟩⟩⟩, "Do X", [], none, none, ""⟩ =
      Except.ok ("Hello " ++ "Do X" ++ pyReplace " World" tokInstruction "Do X") ∧
      pyContains ("Hello " ++ "Do X" ++ pyReplace " World" tokInstruction "Do X") "Do X" = true :=
  claim_c3_amended "Hello " " World" "Do X" [] (by decide) (by decide) (by decide)

/-- Claim C6: in the history transcript, a user message with plain string
content contributes exactly the question line with a trailing blank line;
a user message with a part sequence contributes the question line built
from the text-part values joined with a single space, non-text parts
skipped (`joinTextParts`); and a user message with absent content
contributes nothing. -/
theorem claim_c6_user_messages :
    (∀ pre post s, organize_historic_prompt
        (some (pre ++ PromptMessage.user (some (ContentVal.str s)) :: post)) =
      organize_historic_prompt (some pre) ++ ("Question: " ++ s ++ "\n\n") ++
        organize_historic_prompt (some post)) ∧
    (∀ pre post ps, organize_historic_prompt
        (some (pre ++ PromptMessage.user (some (ContentVal.parts ps)) :: post)) =
      organize_historic_prompt (some pre) ++
        ("Question: " ++ joinTextParts ps ++ "\n\n") ++
        organize_historic_prompt (some post)) ∧
    (∀ pre post, organize_historic_prompt
        (some (pre ++ PromptMessage.user none :: post)) =
      organize_historic_prompt (some pre) ++ organize_historic_prompt (some post)) := by
  refine ⟨?_, ?_, ?_⟩
  · intro pre post s
    rw [organize_historic_prompt_append]
    rfl
  · intro pre post ps
    rw [organize_historic_prompt_append]
    rfl
  · intro pre post
    rw [organize_historic_prompt_append]
    rw [show renderHistoricMessage (PromptMessage.user none) = "" from rfl,
      String.append_empty]

/-- Claim C7: the history transcript of an absent or empty message
sequence is exactly the empty string, and for any sequence it is the
concatenation, in input order, of the per-message rendered blocks. -/
theorem claim_c7_transcript_concat :
    organize_historic_prompt none = "" ∧
    organize_historic_prompt (some []) = "" ∧
    (∀ ms, organize_historic_prompt (some ms) =
      concatStrings (ms.map renderHistoricMessage)) :=
  ⟨rfl, rfl, organize_historic_prompt_concat⟩

/-- Claim C8: in the history transcript, a tool message with plain string
content contributes exactly the tool-response line with a trailing blank
line; a tool message whose content is a single text-part value
contributes the tool-response line built from that value; and a tool
message whose content is a part sequence, like one with absent content,
contributes nothing and raises no error. -/
theorem claim_c8_tool_messages :
    (∀ pre post s, organize_historic_prompt
        (some (pre ++ PromptMessage.tool (some (ContentVal.str s)) :: post)) =
      organize_historic_prompt (some pre) ++ ("Tool Response: " ++ s ++ "\n\n") ++
        organize_historic_prompt (some post)) ∧
    (∀ pre post v, organize_historic_prompt
        (some (pre ++ PromptMessage.tool
          (some (ContentVal.single (MessageContentPart.text v))) :: post)) =
      organize_historic_prompt (some pre) ++ ("Tool Response: " ++ v ++ "\n\n") ++
        organize_historic_prompt (some post)) ∧
    (∀ pre post ps, organize_historic_prompt
        (some (pre ++ PromptMessage.tool (some (ContentVal.parts ps)) :: post)) =
      organize_historic_prompt (some pre) ++ organize_historic_prompt (some post)) ∧
    (∀ pre post, organize_historic_prompt
        (some (pre ++ PromptMessage.tool none :: post)) =
      organize_historic_prompt (some pre) ++ organize_historic_prompt (some post)) := by
  refine ⟨?_, ?_, ?_, ?_⟩
  · intro pre post s
    rw [organize_historic_prompt_append]
    rfl
  · intro pre post v
    rw [organize_historic_prompt_append]
    rfl
  · intro pre post ps
    rw [organize_historic_prompt_append]
    rw [show renderHistoricMessage (PromptMessage.tool (some (ContentVal.parts ps))) = ""
      from rfl, String.append_empty]
  · intro pre post
    rw [organize_historic_prompt_append]
    rw [show renderHistoricMessage (PromptMessage.tool none) = "" from rfl,
      String.append_empty]

/-- State demonstrating claim C9: the history contains the literal query
token as user text, and the template holds the history and query
placeholders. -/
def stC9 : RunnerState :=
  ⟨⟨some ⟨some ⟨tokHistoric ++ "|" ++ tokQuery⟩⟩⟩, "", [],
    some [PromptMessage.user (some (ContentVal.str tokQuery))], none, "q"⟩

/-- Claim C9: placeholder substitution is plain sequential text
replacement, not capture-avoiding.  Demonstration: the history transcript
inserted by the first assembly pass contains the query token, the later
query pass replaces that occurrence too, and consequently the inserted
transcript does not appear verbatim in the final prompt. -/
theorem claim_c9_not_capture_avoiding :
    organize_historic_prompt stC9.history_prompt_messages =
      "Question: " ++ tokQuery ++ "\n\n" ∧
    organize_prompt_messages stC9 = Except.ok
      [PromptMessage.user (some (ContentVal.parts [MessageContentPart.text
        "Question: Question: q\n\n|Question: q"]))] ∧
    pyContains "Question: Question: q\n\n|Question: q"
      (organize_historic_prompt stC9.history_prompt_messages) = false :=
  ⟨rfl, rfl, rfl⟩
